import Mathlib

/-!
Shallow embedding of `src/scoc_metric.py` (stress-tested cash-on-cash metric).

Monetary amounts and rates are modelled as exact rationals (`ℚ`).  The four
columns the source derives by division (`sCoC_percent`, `gross_yield_percent`,
`net_yield_percent`, `DSCR_stress`) are modelled in `FloatVal`, an extension of
`ℚ` with the IEEE special values `inf`, `ninf` and `nan`, because the numpy
semantics of division by zero (x/0 = ±inf, 0/0 = nan, and every comparison
against nan being false) is observable in the source's `label` function.
-/

/-- Result domain of a numpy float division: a finite rational or one of the
IEEE special values produced when the divisor is zero. -/
inductive FloatVal where
  | fin : ℚ → FloatVal
  | inf : FloatVal
  | ninf : FloatVal
  | nan : FloatVal
deriving DecidableEq

/-- Division with numpy float semantics: `a / b` is finite when `b ≠ 0`;
otherwise `+inf`, `-inf` or `nan` according to the sign of `a`. -/
def fdiv (a b : ℚ) : FloatVal :=
  if b ≠ 0 then .fin (a / b)
  else if 0 < a then .inf
  else if a < 0 then .ninf
  else .nan

/-- Multiplication by the positive constant 100, as in `100.0 * (x / y)`:
it preserves the special values and scales finite ones. -/
def FloatVal.scale100 : FloatVal → FloatVal
  | .fin q => .fin (100 * q)
  | .inf => .inf
  | .ninf => .ninf
  | .nan => .nan

/-- Comparison `x >= c` of a float against a finite constant, with IEEE
semantics: `nan >= c` is false, `inf >= c` is true, `-inf >= c` is false. -/
def FloatVal.geQ : FloatVal → ℚ → Bool
  | .fin q, c => decide (c ≤ q)
  | .inf, _ => true
  | .ninf, _ => false
  | .nan, _ => false

/-- Comparison `x <= y` of two floats with IEEE semantics: any comparison
involving `nan` is false. -/
def FloatVal.fle : FloatVal → FloatVal → Bool
  | .nan, _ => false
  | _, .nan => false
  | .fin a, .fin b => decide (a ≤ b)
  | .ninf, _ => true
  | _, .inf => true
  | .inf, _ => false
  | _, .ninf => false

/-- Configuration of financial assumptions (the `DEFAULTS` dict keys of
`scoc_metric.py`, lines 18-26). -/
structure AssumptionSet where
  vacancy_weeks : ℚ
  maintenance_rate : ℚ
  capex_rate : ℚ
  purchase_cost_rate : ℚ
  lvr : ℚ
  loan_term_years : ℕ
  stress_bps : ℚ

/-- The `DEFAULTS` assumption set of `scoc_metric.py`, lines 18-26. -/
def DEFAULTS : AssumptionSet :=
  AssumptionSet.mk 4 0.05 0.01 0.05 0.80 30 200

/-- Annual principal-and-interest repayment (`annual_pni`, lines 31-38):
straight-line `loan_amount / years` when the rate is nonpositive, otherwise
twelve times the standard monthly annuity payment at rate `annual_rate / 12`
over `years * 12` months. -/
def annual_pni (loan_amount annual_rate : ℚ) (years : ℕ) : ℚ :=
  if annual_rate ≤ 0 then loan_amount / (years : ℚ)
  else
    let r := annual_rate / 12
    let n := years * 12
    loan_amount * (r * (1 + r) ^ n) / ((1 + r) ^ n - 1) * 12

/-- Input row as read from the table: required `price` and `weekly_rent`,
and the optional columns of lines 51-67 (`none` models an absent column or a
NaN cell, which the source fills with a default). -/
structure RawRecord where
  address : String
  price : ℚ
  weekly_rent : ℚ
  council_rates : Option ℚ
  strata_body_corp : Option ℚ
  insurance : Option ℚ
  land_tax : Option ℚ
  other_costs : Option ℚ
  current_interest_rate : Option ℚ
  lvr : Option ℚ
  loan_term_years : Option ℕ

/-- Input row after the default-filling steps of lines 47-67: cost columns
default to 0, `current_interest_rate` to 0.065, `lvr` and `loan_term_years`
to the configuration defaults. -/
structure PropertyRecord where
  address : String
  price : ℚ
  weekly_rent : ℚ
  council_rates : ℚ
  strata_body_corp : ℚ
  insurance : ℚ
  land_tax : ℚ
  other_costs : ℚ
  current_interest_rate : ℚ
  lvr : ℚ
  loan_term_years : ℕ

/-- Default filling of lines 47-67 of `compute_scoc`. -/
def fillRecord (r : RawRecord) (cfg : AssumptionSet) : PropertyRecord :=
  PropertyRecord.mk r.address r.price r.weekly_rent
    (r.council_rates.getD 0) (r.strata_body_corp.getD 0)
    (r.insurance.getD 0) (r.land_tax.getD 0) (r.other_costs.getD 0)
    (r.current_interest_rate.getD 0.065)
    (r.lvr.getD cfg.lvr) (r.loan_term_years.getD cfg.loan_term_years)

/-- Output row: every column the dataframe holds after line 112 (input fields
plus all derived columns). -/
structure ScoredRecord where
  address : String
  price : ℚ
  weekly_rent : ℚ
  annual_rent : ℚ
  vacancy_loss : ℚ
  maintenance : ℚ
  capex_reserve : ℚ
  operating_costs : ℚ
  NOI : ℚ
  loan_amount : ℚ
  equity : ℚ
  stress_rate : ℚ
  annual_debt_service_stress : ℚ
  cashflow_after_debt_stress : ℚ
  sCoC_percent : FloatVal
  gross_yield_percent : FloatVal
  net_yield_percent : FloatVal
  DSCR_stress : FloatVal
  signal : String

/-- Signal classification of lines 106-111 (`label`). -/
def label (sCoC_percent DSCR_stress : FloatVal) : String :=
  if sCoC_percent.geQ 2 && DSCR_stress.geQ 1.10 then "BUY (resilient)"
  else if sCoC_percent.geQ 0 && DSCR_stress.geQ 1 then "WATCH (thin buffer)"
  else "AVOID (negative under stress)"

/-- Per-row derivation pipeline of lines 70-112 of `compute_scoc`, applied to
one (already default-filled) row. -/
def deriveRow (p : PropertyRecord) (cfg : AssumptionSet) : ScoredRecord :=
  let annual_rent := p.weekly_rent * 52
  let vacancy_loss := p.weekly_rent * cfg.vacancy_weeks
  let maintenance := cfg.maintenance_rate * annual_rent
  let capex_reserve := cfg.capex_rate * p.price
  let operating_costs := p.council_rates + p.strata_body_corp + p.insurance
      + p.land_tax + p.other_costs + maintenance + capex_reserve
  let NOI := annual_rent - vacancy_loss - operating_costs
  let loan_amount := p.price * p.lvr
  let equity := p.price * (1 - p.lvr) + p.price * cfg.purchase_cost_rate
  let stress_rate := p.current_interest_rate + cfg.stress_bps / 10000
  let annual_debt_service_stress :=
      annual_pni loan_amount stress_rate p.loan_term_years
  let cashflow_after_debt_stress := NOI - annual_debt_service_stress
  let sCoC_percent := (fdiv cashflow_after_debt_stress equity).scale100
  let gross_yield_percent := (fdiv annual_rent p.price).scale100
  let net_yield_percent := (fdiv NOI p.price).scale100
  let DSCR_stress := fdiv NOI annual_debt_service_stress
  ScoredRecord.mk p.address p.price p.weekly_rent annual_rent vacancy_loss
    maintenance capex_reserve operating_costs NOI loan_amount equity
    stress_rate annual_debt_service_stress cashflow_after_debt_stress
    sCoC_percent gross_yield_percent net_yield_percent DSCR_stress
    (label sCoC_percent DSCR_stress)

/-- Whole-table computation (`compute_scoc`, lines 43-123): fills defaults and
derives every row; the columnar pandas operations act row-wise, so the table
transform is the per-row pipeline applied to each row in order. -/
def compute_scoc (rows : List RawRecord) (cfg : AssumptionSet) : List ScoredRecord :=
  match rows with
  | [] => []
  | r :: rs => deriveRow (fillRecord r cfg) cfg :: compute_scoc rs cfg

/-- Modelled from the spec: the signal classification in the spec's words
(section 4.2), to be compared with the source's `label`. -/
def signalSpec (sCoC_percent DSCR_stress : FloatVal) : String :=
  if sCoC_percent.geQ 2.0 && DSCR_stress.geQ 1.10 then "BUY (resilient)"
  else if sCoC_percent.geQ 0.0 && DSCR_stress.geQ 1.0 then "WATCH (thin buffer)"
  else "AVOID (negative under stress)"

/-- The `order` list of output columns, lines 115-122. -/
def order_cols : List String :=
  ["address", "price", "weekly_rent",
   "gross_yield_percent", "net_yield_percent",
   "NOI", "loan_amount", "equity",
   "stress_rate", "annual_debt_service_stress",
   "cashflow_after_debt_stress", "sCoC_percent",
   "DSCR_stress", "signal"]

/-- A pandas column assignment `df[c] = ...` adds column `c` at the end of the
schema when it is not already present. -/
def addCol (cols : List String) (c : String) : List String :=
  if c ∈ cols then cols else cols ++ [c]

/-- Names assigned by `compute_scoc` in source order (lines 51-112); the
required columns `price` and `weekly_rent` are only cast, never created, and
`address` is never assigned at all. -/
def addedCols : List String :=
  ["council_rates", "strata_body_corp", "insurance", "land_tax", "other_costs",
   "current_interest_rate", "lvr", "loan_term_years",
   "annual_rent", "vacancy_loss", "maintenance", "capex_reserve",
   "operating_costs", "NOI", "loan_amount", "equity", "stress_rate",
   "annual_debt_service_stress", "cashflow_after_debt_stress",
   "sCoC_percent", "gross_yield_percent", "net_yield_percent",
   "DSCR_stress", "signal"]

/-- Schema of the dataframe at line 115, as a function of the input schema. -/
def columnsAfter (inputCols : List String) : List String :=
  addedCols.foldl addCol inputCols

/-- Column list of the returned dataframe, line 123:
`[c for c in order if c in df.columns]`. -/
def outputCols (inputCols : List String) : List String :=
  order_cols.filter (fun c => decide (c ∈ columnsAfter inputCols))

/-- Heap model for the aliasing behaviour of `compute_scoc` (line 44): the
heap is the list of dataframe objects the caller can reach, the argument is an
index into it.  `df = df.copy()` allocates a fresh object (appended at the end
of the heap); every subsequent column write of lines 47-123 targets that fresh
object, so the pre-existing objects are left untouched and the computed result
is read off the copy. -/
def compute_scoc_heap (heap : List (List RawRecord)) (i : ℕ) (cfg : AssumptionSet) :
    List (List RawRecord) × List ScoredRecord :=
  let df := heap.getD i []
  (heap ++ [df], compute_scoc df cfg)

/-- First demo row of the `__main__` driver (lines 139-145): 12 Park St,
Box Hill VIC. -/
def boxHillRow : RawRecord :=
  RawRecord.mk "12 Park St, Box Hill VIC" 900000 720
    (some 2200) (some 0) (some 1200) (some 800) (some 500)
    (some 0.065) none none

/-- Scored output row for the Box Hill demo row under the default assumptions. -/
def boxHillScored : ScoredRecord := deriveRow (fillRecord boxHillRow DEFAULTS) DEFAULTS

/-! Helper lemmas about the amortisation formula. -/

/-- Core identity: for a positive per-period rate `r`, `r` times the sum of the
`n` discount factors equals `1 - (1+r)^(-n)`. -/
lemma ann_factor_identity (r : ℚ) (hr : 0 < r) (n : ℕ) :
    r * (∑ i ∈ Finset.range n, ((1 + r) ^ (i + 1))⁻¹) = 1 - ((1 + r) ^ n)⁻¹ := by
  induction n with
  | zero => simp
  | succ k ih =>
    rw [Finset.sum_range_succ, mul_add, ih]
    have hq : (0:ℚ) < 1 + r := by linarith
    have h1 : ((1 + r) : ℚ) ^ k ≠ 0 := by positivity
    have h2 : ((1 + r) : ℚ) ^ (k + 1) ≠ 0 := by positivity
    field_simp
    ring

/-- Inverting the annuity-factor identity: the reciprocal of the discount-factor
sum is the per-period annuity payment factor. -/
lemma inv_of_identity (r S qn : ℚ) (h : r * S = 1 - qn⁻¹) (hqn : 1 < qn) :
    S⁻¹ = r * qn / (qn - 1) := by
  have hqn0 : qn ≠ 0 := by positivity
  have hqn1 : qn - 1 ≠ 0 := by linarith
  refine inv_eq_of_mul_eq_one_right ?_
  calc S * (r * qn / (qn - 1)) = (r * S) * (qn / (qn - 1)) := by ring
    _ = (1 - qn⁻¹) * (qn / (qn - 1)) := by rw [h]
    _ = 1 := by field_simp

/-- The discount-factor sum is positive when there is at least one period. -/
lemma ann_factor_pos (r : ℚ) (hr : 0 < r) (n : ℕ) (hn : 0 < n) :
    0 < ∑ i ∈ Finset.range n, ((1 + r) ^ (i + 1))⁻¹ := by
  have hq : (0:ℚ) < 1 + r := by linarith
  refine Finset.sum_pos (fun i _ => by positivity) ?_
  exact ⟨0, Finset.mem_range.mpr hn⟩

/-- The discount-factor sum over `n` periods is at most `n`. -/
lemma ann_factor_le (r : ℚ) (hr : 0 < r) (n : ℕ) :
    (∑ i ∈ Finset.range n, ((1 + r) ^ (i + 1))⁻¹) ≤ (n : ℚ) := by
  have hq : (1:ℚ) ≤ 1 + r := by linarith
  calc (∑ i ∈ Finset.range n, ((1 + r) ^ (i + 1))⁻¹)
      ≤ ∑ _i ∈ Finset.range n, (1:ℚ) := by
        refine Finset.sum_le_sum (fun i _ => ?_)
        exact inv_le_one_of_one_le₀ (one_le_pow₀ hq)
    _ = (n : ℚ) := by simp

/-- The discount-factor sum is antitone in the rate. -/
lemma ann_factor_anti (r1 r2 : ℚ) (h1 : 0 < r1) (h12 : r1 ≤ r2) (n : ℕ) :
    (∑ i ∈ Finset.range n, ((1 + r2) ^ (i + 1))⁻¹)
      ≤ ∑ i ∈ Finset.range n, ((1 + r1) ^ (i + 1))⁻¹ := by
  refine Finset.sum_le_sum (fun i _ => ?_)
  have hq1 : (0:ℚ) < (1 + r1) ^ (i + 1) := by positivity
  have hle : ((1 + r1) : ℚ) ^ (i + 1) ≤ (1 + r2) ^ (i + 1) :=
    pow_le_pow_left₀ (by linarith) (by linarith) _
  exact inv_anti₀ hq1 hle

/-- Closed form of `annual_pni` at a positive rate as loan times the reciprocal
discount-factor sum. -/
lemma annual_pni_eq_inv_factor (loan rate : ℚ) (hr : 0 < rate) (y : ℕ) (hy : 0 < y) :
    annual_pni loan rate y =
      loan * 12 * (∑ i ∈ Finset.range (y * 12), ((1 + rate / 12) ^ (i + 1))⁻¹)⁻¹ := by
  unfold annual_pni
  rw [if_neg (not_le.mpr hr)]
  have hr' : 0 < rate / 12 := by positivity
  have hn : y * 12 ≠ 0 := by positivity
  have hqn : (1:ℚ) < (1 + rate / 12) ^ (y * 12) :=
    one_lt_pow₀ (by linarith) hn
  rw [inv_of_identity (rate / 12) _ _ (ann_factor_identity (rate / 12) hr' (y * 12)) hqn]
  ring

/-- At a positive rate the annuity payment is at least the straight-line
payment `loan / years`. -/
lemma annual_pni_ge_straight (loan rate : ℚ) (hL : 0 ≤ loan) (hr : 0 < rate)
    (y : ℕ) (hy : 0 < y) :
    loan / (y : ℚ) ≤ annual_pni loan rate y := by
  rw [annual_pni_eq_inv_factor loan rate hr y hy]
  have hr' : 0 < rate / 12 := by positivity
  have hSpos := ann_factor_pos (rate / 12) hr' (y * 12) (by positivity)
  have hSle := ann_factor_le (rate / 12) hr' (y * 12)
  have hinv : (((y * 12 : ℕ) : ℚ))⁻¹
      ≤ (∑ i ∈ Finset.range (y * 12), ((1 + rate / 12) ^ (i + 1))⁻¹)⁻¹ :=
    inv_anti₀ hSpos hSle
  have hy0 : ((y : ℚ)) ≠ 0 := by positivity
  calc loan / (y : ℚ) = loan * 12 * (((y * 12 : ℕ) : ℚ))⁻¹ := by
        push_cast
        field_simp
        ring
    _ ≤ loan * 12 * (∑ i ∈ Finset.range (y * 12), ((1 + rate / 12) ^ (i + 1))⁻¹)⁻¹ :=
        mul_le_mul_of_nonneg_left hinv (by positivity)

/-- The annual payment is monotone in the annual rate for a nonnegative loan,
across the straight-line fallback boundary as well. -/
lemma annual_pni_mono_rate (loan : ℚ) (hL : 0 ≤ loan) (y : ℕ) (hy : 0 < y)
    (r1 r2 : ℚ) (h12 : r1 ≤ r2) : annual_pni loan r1 y ≤ annual_pni loan r2 y := by
  rcases le_or_lt r2 0 with h2 | h2
  · rw [annual_pni, if_pos (h12.trans h2), annual_pni, if_pos h2]
  · rcases le_or_lt r1 0 with h1 | h1
    · rw [annual_pni, if_pos h1]
      exact annual_pni_ge_straight loan r2 hL h2 y hy
    · rw [annual_pni_eq_inv_factor loan r1 h1 y hy, annual_pni_eq_inv_factor loan r2 h2 y hy]
      have hr1' : 0 < r1 / 12 := by positivity
      have hSpos2 := ann_factor_pos (r2 / 12) (by positivity) (y * 12) (by positivity)
      have hanti := ann_factor_anti (r1 / 12) (r2 / 12) hr1' (by linarith) (y * 12)
      exact mul_le_mul_of_nonneg_left (inv_anti₀ hSpos2 hanti) (by positivity)

/-- The amortisation of a zero loan is zero in both branches of `annual_pni`. -/
lemma annual_pni_zero_loan (r : ℚ) (y : ℕ) : annual_pni 0 r y = 0 := by
  unfold annual_pni
  split <;> simp

/-- The signal column is the `label` classification of the row's own
`sCoC_percent` and `DSCR_stress` columns. -/
lemma signal_eq (p : PropertyRecord) (cfg : AssumptionSet) :
    (deriveRow p cfg).signal =
      label (deriveRow p cfg).sCoC_percent (deriveRow p cfg).DSCR_stress := rfl

/-- Unfolded form of the `sCoC_percent` column of a derived row. -/
lemma sCoC_eq (p : PropertyRecord) (cfg : AssumptionSet) :
    (deriveRow p cfg).sCoC_percent =
      (fdiv
        ((p.weekly_rent * 52 - p.weekly_rent * cfg.vacancy_weeks
          - (p.council_rates + p.strata_body_corp + p.insurance + p.land_tax + p.other_costs
             + cfg.maintenance_rate * (p.weekly_rent * 52) + cfg.capex_rate * p.price))
         - annual_pni (p.price * p.lvr) (p.current_interest_rate + cfg.stress_bps / 10000)
             p.loan_term_years)
        (p.price * (1 - p.lvr) + p.price * cfg.purchase_cost_rate)).scale100 := rfl

/-- Membership in the schema after the column-adding fold: a name already in
the schema, or one of the assigned names, is present afterwards. -/
lemma mem_foldl_addCol (l : List String) (cols : List String) (c : String)
    (h : c ∈ cols ∨ c ∈ l) : c ∈ l.foldl addCol cols := by
  induction l generalizing cols with
  | nil => simpa using h.resolve_right (by simp)
  | cons a t ih =>
    simp only [List.foldl_cons]
    apply ih
    rcases h with h | h
    · left
      unfold addCol
      split
      · exact h
      · exact List.mem_append_left _ h
    · rcases List.mem_cons.mp h with rfl | h
      · left
        unfold addCol
        split
        · assumption
        · exact List.mem_append_right _ (by simp)
      · right
        exact h

/-! Claim theorems. -/

/-- C1: for every loan amount, every annual rate at most 0, and every positive
number of years, `annual_pni` returns the straight-line payment
`loan_amount / years`. -/
theorem annual_pni_nonpos_rate (L rate : ℚ) (y : ℕ) (hr : rate ≤ 0) (_hy : 0 < y) :
    annual_pni L rate y = L / (y : ℚ) := by
  unfold annual_pni
  rw [if_pos hr]

/-- Witness for C1 at loan 100, rate -1, 4 years. -/
theorem annual_pni_nonpos_rate_witness :
    ((-1 : ℚ) ≤ 0) ∧ (0 < 4) ∧ annual_pni 100 (-1) 4 = 100 / (4 : ℚ) :=
  ⟨by norm_num, by norm_num, annual_pni_nonpos_rate 100 (-1) 4 (by norm_num) (by norm_num)⟩

/-- C2: for every nonnegative loan amount, every positive annual rate, and
every positive number of years, `annual_pni` equals 12 times the standard
monthly annuity payment at monthly rate `rate / 12` over `years * 12`
payments. -/
theorem annual_pni_pos_rate (L rate : ℚ) (y : ℕ) (_hL : 0 ≤ L) (hr : 0 < rate) (_hy : 0 < y) :
    annual_pni L rate y =
      12 * (L * (rate / 12) * (1 + rate / 12) ^ (y * 12) / ((1 + rate / 12) ^ (y * 12) - 1)) := by
  unfold annual_pni
  rw [if_neg (not_le.mpr hr)]
  ring

/-- Witness for C2 at loan 100, rate 12, 1 year. -/
theorem annual_pni_pos_rate_witness :
    ((0 : ℚ) ≤ 100) ∧ ((0 : ℚ) < 12) ∧ (0 < 1) ∧
      annual_pni 100 12 1 =
        12 * (100 * ((12 : ℚ) / 12) * (1 + (12 : ℚ) / 12) ^ (1 * 12)
          / ((1 + (12 : ℚ) / 12) ^ (1 * 12) - 1)) :=
  ⟨by norm_num, by norm_num, by norm_num,
    annual_pni_pos_rate 100 12 1 (by norm_num) (by norm_num) (by norm_num)⟩

/-- C3: on the Box Hill demo row (price 900000, weekly rent 720, council rates
2200, strata 0, insurance 1200, land tax 800, other costs 500, interest rate
0.065) under the default assumptions, the pipeline derives annual_rent 37440,
vacancy_loss 2880, maintenance 1872, capex_reserve 9000, operating_costs 15572,
NOI 18988, loan_amount 720000, equity 225000, stress_rate 0.085, and the
signal "AVOID (negative under stress)". -/
theorem boxhill_scenario :
    boxHillScored.annual_rent = 37440 ∧
    boxHillScored.vacancy_loss = 2880 ∧
    boxHillScored.maintenance = 1872 ∧
    boxHillScored.capex_reserve = 9000 ∧
    boxHillScored.operating_costs = 15572 ∧
    boxHillScored.NOI = 18988 ∧
    boxHillScored.loan_amount = 720000 ∧
    boxHillScored.equity = 225000 ∧
    boxHillScored.stress_rate = 0.085 ∧
    boxHillScored.signal = "AVOID (negative under stress)" := by
  have hads : (24000:ℚ) ≤ annual_pni 720000 (17 / 200) 30 := by
    have h := annual_pni_ge_straight 720000 (17 / 200) (by norm_num) (by norm_num) 30 (by norm_num)
    norm_num at h
    exact h
  have hfin : boxHillScored.sCoC_percent =
      FloatVal.fin (100 * ((18988 - annual_pni 720000 (17 / 200) 30) / 225000)) := by
    norm_num [boxHillScored, deriveRow, fillRecord, boxHillRow, DEFAULTS, fdiv, FloatVal.scale100]
  have hval : 100 * ((18988 - annual_pni 720000 (17 / 200) 30) / 225000) < 0 := by
    have h1 : (18988:ℚ) - annual_pni 720000 (17 / 200) 30 < 0 := by linarith
    have h2 := div_neg_of_neg_of_pos h1 (by norm_num : (0:ℚ) < 225000)
    linarith
  refine ⟨by norm_num [boxHillScored, deriveRow, fillRecord, boxHillRow, DEFAULTS],
    by norm_num [boxHillScored, deriveRow, fillRecord, boxHillRow, DEFAULTS],
    by norm_num [boxHillScored, deriveRow, fillRecord, boxHillRow, DEFAULTS],
    by norm_num [boxHillScored, deriveRow, fillRecord, boxHillRow, DEFAULTS],
    by norm_num [boxHillScored, deriveRow, fillRecord, boxHillRow, DEFAULTS],
    by norm_num [boxHillScored, deriveRow, fillRecord, boxHillRow, DEFAULTS],
    by norm_num [boxHillScored, deriveRow, fillRecord, boxHillRow, DEFAULTS],
    by norm_num [boxHillScored, deriveRow, fillRecord, boxHillRow, DEFAULTS],
    by norm_num [boxHillScored, deriveRow, fillRecord, boxHillRow, DEFAULTS], ?_⟩
  have hsig : boxHillScored.signal =
      label boxHillScored.sCoC_percent boxHillScored.DSCR_stress := rfl
  rw [hsig, hfin]
  unfold label
  have g2 : (FloatVal.fin (100 * ((18988 - annual_pni 720000 (17 / 200) 30) / 225000))).geQ 2
      = false := by
    simp only [FloatVal.geQ, decide_eq_false_iff_not, not_le]
    linarith
  have g0 : (FloatVal.fin (100 * ((18988 - annual_pni 720000 (17 / 200) 30) / 225000))).geQ 0
      = false := by
    simp only [FloatVal.geQ, decide_eq_false_iff_not, not_le]
    linarith
  rw [g2, g0]
  simp

/-- C4: for every derived row, the signal equals the spec's priority-ordered
classification of that row's `sCoC_percent` and `DSCR_stress` (BUY when
sCoC ≥ 2.0 and DSCR ≥ 1.10, else WATCH when sCoC ≥ 0.0 and DSCR ≥ 1.0, else
AVOID). -/
theorem signal_matches_spec (p : PropertyRecord) (cfg : AssumptionSet) :
    (deriveRow p cfg).signal =
      signalSpec (deriveRow p cfg).sCoC_percent (deriveRow p cfg).DSCR_stress := by
  rw [signal_eq]
  unfold label signalSpec
  norm_num

/-- C5: holding the row and every other assumption fixed, with nonnegative
price and LVR, a positive loan term and positive equity, the `sCoC_percent`
computed with the larger `stress_bps` is at most the one computed with the
smaller `stress_bps`. -/
theorem sCoC_antitone_stress_bps
    (p : PropertyRecord) (vw mr cr pcr lv : ℚ) (lty : ℕ) (b1 b2 : ℚ)
    (hprice : 0 ≤ p.price) (hlvr : 0 ≤ p.lvr) (hy : 0 < p.loan_term_years)
    (heq : 0 < p.price * (1 - p.lvr) + p.price * pcr)
    (hb : b1 ≤ b2) :
    FloatVal.fle
      (deriveRow p (AssumptionSet.mk vw mr cr pcr lv lty b2)).sCoC_percent
      (deriveRow p (AssumptionSet.mk vw mr cr pcr lv lty b1)).sCoC_percent = true := by
  have hads : annual_pni (p.price * p.lvr) (p.current_interest_rate + b1 / 10000) p.loan_term_years
      ≤ annual_pni (p.price * p.lvr) (p.current_interest_rate + b2 / 10000) p.loan_term_years :=
    annual_pni_mono_rate (p.price * p.lvr) (mul_nonneg hprice hlvr) p.loan_term_years hy _ _
      (by linarith)
  rw [sCoC_eq, sCoC_eq]
  have hE : p.price * (1 - p.lvr) + p.price * pcr ≠ 0 := ne_of_gt heq
  simp only [fdiv, if_pos hE, FloatVal.scale100, FloatVal.fle, decide_eq_true_eq]
  gcongr

/-- Witness for C5 on the Box Hill inputs with stress 100 bps versus 200 bps. -/
theorem sCoC_antitone_stress_bps_witness :
    (0:ℚ) ≤ (PropertyRecord.mk "12 Park St, Box Hill VIC" 900000 720 2200 0 1200 800 500
        0.065 0.8 30).price ∧
    (0:ℚ) ≤ (PropertyRecord.mk "12 Park St, Box Hill VIC" 900000 720 2200 0 1200 800 500
        0.065 0.8 30).lvr ∧
    0 < (PropertyRecord.mk "12 Park St, Box Hill VIC" 900000 720 2200 0 1200 800 500
        0.065 0.8 30).loan_term_years ∧
    (0:ℚ) < (PropertyRecord.mk "12 Park St, Box Hill VIC" 900000 720 2200 0 1200 800 500
        0.065 0.8 30).price * (1 - (PropertyRecord.mk "12 Park St, Box Hill VIC" 900000 720
        2200 0 1200 800 500 0.065 0.8 30).lvr) + (PropertyRecord.mk "12 Park St, Box Hill VIC"
        900000 720 2200 0 1200 800 500 0.065 0.8 30).price * (0.05 : ℚ) ∧
    ((100:ℚ) ≤ 200) ∧
    FloatVal.fle
      (deriveRow (PropertyRecord.mk "12 Park St, Box Hill VIC" 900000 720 2200 0 1200 800 500
        0.065 0.8 30) (AssumptionSet.mk 4 0.05 0.01 0.05 0.8 30 200)).sCoC_percent
      (deriveRow (PropertyRecord.mk "12 Park St, Box Hill VIC" 900000 720 2200 0 1200 800 500
        0.065 0.8 30) (AssumptionSet.mk 4 0.05 0.01 0.05 0.8 30 100)).sCoC_percent = true :=
  ⟨by norm_num, by norm_num, by norm_num, by norm_num, by norm_num,
    sCoC_antitone_stress_bps
      (PropertyRecord.mk "12 Park St, Box Hill VIC" 900000 720 2200 0 1200 800 500 0.065 0.8 30)
      4 0.05 0.01 0.05 0.8 30 100 200
      (by norm_num) (by norm_num) (by norm_num) (by norm_num) (by norm_num)⟩

/-- C6: the computed table has exactly as many rows as the input, and its i-th
row is the pure per-row derivation of the i-th input row and the shared
configuration alone (no cross-row dependency). -/
theorem compute_scoc_preserves_rows (rows : List RawRecord) (cfg : AssumptionSet) :
    (compute_scoc rows cfg).length = rows.length ∧
    ∀ i : ℕ, (compute_scoc rows cfg)[i]? =
      (rows[i]?).map (fun r => deriveRow (fillRecord r cfg) cfg) := by
  induction rows with
  | nil => exact ⟨rfl, fun i => by simp [compute_scoc]⟩
  | cons r rs ih =>
    refine ⟨by simp [compute_scoc, ih.1], fun i => ?_⟩
    cases i with
    | zero => simp [compute_scoc]
    | succ j => simpa [compute_scoc] using ih.2 j

/-- C7 counterexample: an input table holding only the required columns
`price` and `weekly_rent` yields an output without the `address` column, so
the output column list is not the full fixed 14-column list. -/
theorem output_cols_missing_address :
    outputCols ["price", "weekly_rent"] ≠ order_cols := by decide

/-- C7 (amended): for every input schema containing `address` in addition to
the required `price` and `weekly_rent` columns, the returned table has exactly
the fixed 14 columns in the fixed order. -/
theorem output_cols_complete (inputCols : List String)
    (ha : "address" ∈ inputCols) (hp : "price" ∈ inputCols)
    (hw : "weekly_rent" ∈ inputCols) :
    outputCols inputCols = order_cols := by
  unfold outputCols
  rw [List.filter_eq_self]
  intro a haa
  rw [decide_eq_true_iff]
  unfold columnsAfter
  fin_cases haa
  · exact mem_foldl_addCol _ _ _ (Or.inl ha)
  · exact mem_foldl_addCol _ _ _ (Or.inl hp)
  · exact mem_foldl_addCol _ _ _ (Or.inl hw)
  all_goals exact mem_foldl_addCol _ _ _ (Or.inr (by simp [addedCols]))

/-- Witness for the amended C7 on the demo input schema. -/
theorem output_cols_complete_witness :
    ("address" ∈ ["address", "price", "weekly_rent", "council_rates", "strata_body_corp",
      "insurance", "land_tax", "other_costs", "current_interest_rate"]) ∧
    ("price" ∈ ["address", "price", "weekly_rent", "council_rates", "strata_body_corp",
      "insurance", "land_tax", "other_costs", "current_interest_rate"]) ∧
    ("weekly_rent" ∈ ["address", "price", "weekly_rent", "council_rates", "strata_body_corp",
      "insurance", "land_tax", "other_costs", "current_interest_rate"]) ∧
    outputCols ["address", "price", "weekly_rent", "council_rates", "strata_body_corp",
      "insurance", "land_tax", "other_costs", "current_interest_rate"] = order_cols :=
  ⟨by decide, by decide, by decide,
    output_cols_complete _ (by decide) (by decide) (by decide)⟩

/-- C8 (amended): for every row with LVR 0, the pipeline derives
`loan_amount = 0` and `annual_debt_service_stress = 0`, and the undefined
`DSCR_stress` becomes a non-finite IEEE sentinel (nan or an infinity) rather
than a finite value; no error is raised and the computation completes. -/
theorem lvr_zero_debt_free (p : PropertyRecord) (cfg : AssumptionSet) (hlvr : p.lvr = 0) :
    (deriveRow p cfg).loan_amount = 0 ∧
    (deriveRow p cfg).annual_debt_service_stress = 0 ∧
    ((deriveRow p cfg).DSCR_stress = FloatVal.nan ∨
     (deriveRow p cfg).DSCR_stress = FloatVal.inf ∨
     (deriveRow p cfg).DSCR_stress = FloatVal.ninf) := by
  have hloan : (deriveRow p cfg).loan_amount = 0 := by simp [deriveRow, hlvr]
  have hads : (deriveRow p cfg).annual_debt_service_stress = 0 := by
    simp [deriveRow, hlvr, annual_pni_zero_loan]
  have hdscr : (deriveRow p cfg).DSCR_stress = fdiv (deriveRow p cfg).NOI 0 := by
    simp [deriveRow, hlvr, annual_pni_zero_loan]
  refine ⟨hloan, hads, ?_⟩
  rw [hdscr]
  rcases lt_trichotomy ((deriveRow p cfg).NOI) 0 with h | h | h
  · right; right; simp [fdiv, h, not_lt.mpr h.le]
  · left; simp [fdiv, h]
  · right; left; simp [fdiv, h]

/-- Witness for the amended C8 at a concrete LVR-0 row. -/
theorem lvr_zero_debt_free_witness :
    ((PropertyRecord.mk "5 Gum Ct" 500000 500 1000 0 800 0 0 0.065 0 30).lvr = 0) ∧
    ((deriveRow (PropertyRecord.mk "5 Gum Ct" 500000 500 1000 0 800 0 0 0.065 0 30)
        DEFAULTS).loan_amount = 0 ∧
     (deriveRow (PropertyRecord.mk "5 Gum Ct" 500000 500 1000 0 800 0 0 0.065 0 30)
        DEFAULTS).annual_debt_service_stress = 0 ∧
     ((deriveRow (PropertyRecord.mk "5 Gum Ct" 500000 500 1000 0 800 0 0 0.065 0 30)
        DEFAULTS).DSCR_stress = FloatVal.nan ∨
      (deriveRow (PropertyRecord.mk "5 Gum Ct" 500000 500 1000 0 800 0 0 0.065 0 30)
        DEFAULTS).DSCR_stress = FloatVal.inf ∨
      (deriveRow (PropertyRecord.mk "5 Gum Ct" 500000 500 1000 0 800 0 0 0.065 0 30)
        DEFAULTS).DSCR_stress = FloatVal.ninf)) :=
  ⟨rfl, lvr_zero_debt_free _ DEFAULTS rfl⟩

/-- C8 counterexample: at a concrete LVR-0 row with zero net operating income,
`DSCR_stress` is the silently propagated `nan` sentinel of the unchecked
division, the row still receives a signal, and no explicitly handled
DivisionSingularity error value appears anywhere in the computation. -/
theorem lvr_zero_nan_silent :
    (deriveRow (PropertyRecord.mk "0 Example St" 0 0 0 0 0 0 0 0.065 0 30) DEFAULTS).DSCR_stress
        = FloatVal.nan ∧
    (deriveRow (PropertyRecord.mk "0 Example St" 0 0 0 0 0 0 0 0.065 0 30) DEFAULTS).sCoC_percent
        = FloatVal.nan ∧
    (deriveRow (PropertyRecord.mk "0 Example St" 0 0 0 0 0 0 0 0.065 0 30) DEFAULTS).signal
        = "AVOID (negative under stress)" := by
  norm_num [deriveRow, DEFAULTS, fdiv, FloatVal.scale100, annual_pni_zero_loan, label,
    FloatVal.geQ]

/-- C9: `compute_scoc` does not mutate the caller's table: the first statement
of the source copies the dataframe and every later column write targets the
copy, so every object the caller held before the call is unchanged, and the
result is computed from the original contents. -/
theorem compute_scoc_no_mutation (heap : List (List RawRecord)) (i : ℕ) (cfg : AssumptionSet) :
    ((compute_scoc_heap heap i cfg).1).take heap.length = heap ∧
    (compute_scoc_heap heap i cfg).2 = compute_scoc (heap.getD i []) cfg := by
  constructor
  · show (heap ++ [heap.getD i []]).take heap.length = heap
    simp
  · rfl

/-- C10: for every row whose `sCoC_percent` or `DSCR_stress` is nan, the
signal is "AVOID (negative under stress)", because comparisons against nan are
false and both earlier branches require such comparisons to hold. -/
theorem nan_signal_avoid (p : PropertyRecord) (cfg : AssumptionSet)
    (h : (deriveRow p cfg).sCoC_percent = FloatVal.nan ∨
         (deriveRow p cfg).DSCR_stress = FloatVal.nan) :
    (deriveRow p cfg).signal = "AVOID (negative under stress)" := by
  rcases h with h | h <;> rw [signal_eq, h] <;>
    simp [label, FloatVal.geQ]

/-- Witness for C10 at a concrete row with nan DSCR. -/
theorem nan_signal_avoid_witness :
    (deriveRow (PropertyRecord.mk "1 Nil Ct" 0 0 0 0 0 0 0 0.065 0 30) DEFAULTS).DSCR_stress
        = FloatVal.nan ∧
    (deriveRow (PropertyRecord.mk "1 Nil Ct" 0 0 0 0 0 0 0 0.065 0 30) DEFAULTS).signal
        = "AVOID (negative under stress)" := by
  have hd : (deriveRow (PropertyRecord.mk "1 Nil Ct" 0 0 0 0 0 0 0 0.065 0 30)
      DEFAULTS).DSCR_stress = FloatVal.nan := by
    norm_num [deriveRow, DEFAULTS, fdiv, annual_pni_zero_loan]
  exact ⟨hd, nan_signal_avoid _ _ (Or.inr hd)⟩
